import Mathlib

/-!
Verification development for the notification-system repository: a shallow
embedding of the socket server's room registry, duplicate-prevention cache,
HTTP send endpoint, and the hybrid (MySQL + JSON) subscription store, with
theorems settling the frozen behavioural claims.

Conventions of the embedding:
* JavaScript `Map` objects become association lists `List (String × β)` with
  `lookupKey` / `setKey` / `delKey` mirroring `get` / `set` / `delete`
  (insertion order preserved, keys unique as `Map` guarantees).
* socket.io rooms (`io.sockets.adapter.rooms`, a `Map<string, Set<string>>`)
  become `List (String × List String)`; `socket.join` adds the socket id if
  absent, `socket.leave` removes it and drops the room entry when it empties,
  exactly as the adapter does.
* `Date.now()` becomes an explicit `now : Nat` argument; ISO timestamp strings
  become explicit `String` arguments.  JavaScript falsy string checks
  (`!userId`) become comparisons with the empty string.
* Functions that `throw` are embedded as `Except String _`.
-/

/-! ### Association-list primitives (JavaScript Map semantics) -/

/-- `Map.get`: value of the first entry with the given key. -/
def lookupKey {β : Type} (l : List (String × β)) (k : String) : Option β :=
  (l.find? (fun e => e.1 == k)).map (fun e => e.2)

/-- `Map.has`: whether some entry has the given key. -/
def hasKey {β : Type} (l : List (String × β)) (k : String) : Bool :=
  l.any (fun e => e.1 == k)

/-- `Map.set`: replace the value in place if the key is present, else append. -/
def setKey {β : Type} : List (String × β) → String → β → List (String × β)
  | [], k, v => [(k, v)]
  | e :: l, k, v => if e.1 == k then (k, v) :: l else e :: setKey l k v

/-- `Map.delete`: drop the entry with the given key. -/
def delKey {β : Type} (l : List (String × β)) (k : String) : List (String × β) :=
  l.filter (fun e => !(e.1 == k))

/-! ### socket.io room registry primitives -/

/-- Member list of a room (`io.sockets.adapter.rooms.get(room)`, empty if absent). -/
def roomMembers (rooms : List (String × List String)) (r : String) : List String :=
  (lookupKey rooms r).getD []

/-- `socket.join(room)`: add the socket id to the room's member set. -/
def roomJoin (rooms : List (String × List String)) (r sid : String) :
    List (String × List String) :=
  match lookupKey rooms r with
  | some ms => setKey rooms r (if ms.contains sid then ms else ms ++ [sid])
  | none => setKey rooms r [sid]

/-- `socket.leave(room)`: remove the socket id; drop the room when it empties. -/
def roomLeave (rooms : List (String × List String)) (r sid : String) :
    List (String × List String) :=
  match lookupKey rooms r with
  | some ms =>
      let ms' := ms.filter (fun s => !(s == sid))
      if ms'.isEmpty then delKey rooms r else setKey rooms r ms'
  | none => rooms

/-! ### lib/socket.js — in-handler server state

State visible to the connection event handlers registered in `initSocket`
(`io` is initialized there): the adapter's rooms, the module-level
`userSockets` and `sentNotifications` maps, and the per-connection
`socket.userId` / `socket.companyId` fields (absent = JavaScript null). -/

structure SocketState where
  rooms : List (String × List String)
  userSockets : List (String × String)
  sentNotifications : List (String × Nat)
  connUser : List (String × String)
  connCompany : List (String × String)
deriving DecidableEq, Repr

/-- Fresh server: no rooms, no mappings, empty duplicate cache. -/
def initialSocketState : SocketState :=
  { rooms := [], userSockets := [], sentNotifications := [], connUser := [], connCompany := [] }

/-- Room name for a user scope (lib/socket.js builds the string "user-" + id). -/
def userRoom (u : String) : String := "user-" ++ u

/-- Room name for a company scope ("company-" + id). -/
def companyRoom (c : String) : String := "company-" ++ c

/-- Room name for a company's waiter scope ("waiters-" + id). -/
def waiterRoom (c : String) : String := "waiters-" ++ c

/-- Events a handler emits back to the requesting connection. -/
inductive SocketReply where
  | joinError (error : String)
  | joinedRoom (userId socketId room : String)
  | joinedCompanyRoom (userId companyId socketId room : String)
  | joinedWaiterRoom (success : Bool) (companyId : String)
deriving DecidableEq, Repr

/-- The join-user-room handler (lib/socket.js lines 72-98): reject an empty
user id; otherwise leave the previous user room and delete its userSockets
mapping, join the new room, and record both mappings. -/
def joinUserRoom (st : SocketState) (sid userId : String) : SocketState × SocketReply :=
  if userId == "" then
    (st, .joinError "User ID is required")
  else
    let st1 :=
      match lookupKey st.connUser sid with
      | some prev =>
          { st with rooms := roomLeave st.rooms (userRoom prev) sid,
                    userSockets := delKey st.userSockets prev }
      | none => st
    let st2 :=
      { st1 with rooms := roomJoin st1.rooms (userRoom userId) sid,
                 connUser := setKey st1.connUser sid userId,
                 userSockets := setKey st1.userSockets userId sid }
    (st2, .joinedRoom userId sid (userRoom userId))

/-- The join-company-room handler (lib/socket.js lines 101-129): reject when
either id is empty; otherwise leave the previous company room, join the new
one, and record socket.companyId. -/
def joinCompanyRoom (st : SocketState) (sid userId companyId : String) :
    SocketState × SocketReply :=
  if userId == "" || companyId == "" then
    (st, .joinError "User ID and Company ID are required")
  else
    let st1 :=
      match lookupKey st.connCompany sid with
      | some prev => { st with rooms := roomLeave st.rooms (companyRoom prev) sid }
      | none => st
    let st2 :=
      { st1 with rooms := roomJoin st1.rooms (companyRoom companyId) sid,
                 connCompany := setKey st1.connCompany sid companyId }
    (st2, .joinedCompanyRoom userId companyId sid (companyRoom companyId))

/-- The join-waiter-room handler (lib/socket.js lines 132-143): join the
company-specific waiter room when a company id is supplied, always join the
global waiters room, and emit success unconditionally. -/
def joinWaiterRoom (st : SocketState) (sid companyId : String) :
    SocketState × SocketReply :=
  let st1 :=
    if companyId == "" then st
    else { st with rooms := roomJoin st.rooms (waiterRoom companyId) sid }
  let st2 := { st1 with rooms := roomJoin st1.rooms "waiters" sid }
  (st2, .joinedWaiterRoom true companyId)

/-! ### Duplicate-prevention fingerprints -/

/-- `message.slice(0, 20).replace(/\s+/g, '-')`: each maximal run of
whitespace in the truncated message becomes a single dash.  The boolean flag
records whether the previous character belonged to a whitespace run. -/
def collapseWhitespace : Bool → List Char → List Char
  | _, [] => []
  | prevWs, c :: rest =>
    if c.isWhitespace then
      if prevWs then collapseWhitespace true rest
      else '-' :: collapseWhitespace true rest
    else c :: collapseWhitespace false rest

/-- The message slug used inside every fingerprint. -/
def messageSlug (message : String) : String :=
  { data := collapseWhitespace false (message.data.take 20) }

/-- notificationId derivation of the send-notification handler
(lib/socket.js line 240): embeds the exact millisecond clock value. -/
def notificationFingerprint (targetUserId message : String) (now : Nat) : String :=
  "user-" ++ targetUserId ++ "-" ++ toString now ++ "-" ++ messageSlug message

/-- broadcastId derivation of the broadcast-notification handler (line 317). -/
def broadcastFingerprint (message : String) (now : Nat) : String :=
  "broadcast-" ++ toString now ++ "-" ++ messageSlug message

/-- notificationId derivation of the server-side sendToUser helper (line 549). -/
def serverNotificationId (userId message : String) (now : Nat) : String :=
  "server-" ++ userId ++ "-" ++ toString now ++ "-" ++ messageSlug message

/-- broadcastId derivation of the server-side broadcastToAll helper (line 589). -/
def serverBroadcastId (message : String) (now : Nat) : String :=
  "server-broadcast-" ++ toString now ++ "-" ++ messageSlug message

/-! ### Dedup cache operations -/

/-- Retention window of the sentNotifications cache: 5 minutes in ms. -/
def RETENTION_MS : Nat := 5 * 60 * 1000

/-- The admitFingerprint step performed by the send paths (lib/socket.js lines 243 and
264): a pure membership test on the cache followed by an insert with the
current time; the age of an existing entry is not consulted. -/
def admitFingerprint (cache : List (String × Nat)) (fid : String) (now : Nat) :
    Bool × List (String × Nat) :=
  if hasKey cache fid then (false, cache)
  else (true, setKey cache fid now)

/-- The periodic cleanup sweep (lib/socket.js lines 56-63, run every minute):
delete every entry whose timestamp is older than five minutes. -/
def sweep (cache : List (String × Nat)) (now : Nat) : List (String × Nat) :=
  cache.filter (fun e => !decide (e.2 < now - RETENTION_MS))

/-! ### send-notification handler -/

/-- Outcome the send-notification handler emits to the sender. -/
inductive SendOutcome where
  | errorMissing
  | errorDuplicate (notificationId : String)
  | sent (notificationId : String) (roomSize : Nat)
  | errorNotConnected (targetUserId : String)
deriving DecidableEq, Repr

/-- The send-notification handler (lib/socket.js lines 227-301): validate,
derive the fingerprint, reject cached duplicates, mark as sent, then emit to
the target user room if it has members — otherwise emit a
notification-error ("Target user not connected") back to the sender. -/
def sendNotification (st : SocketState) (targetUserId message : String) (now : Nat) :
    SocketState × SendOutcome :=
  if targetUserId == "" || message == "" then
    (st, .errorMissing)
  else
    let notificationId := notificationFingerprint targetUserId message now
    if hasKey st.sentNotifications notificationId then
      (st, .errorDuplicate notificationId)
    else
      let st1 := { st with sentNotifications := setKey st.sentNotifications notificationId now }
      let roomSize := (roomMembers st1.rooms (userRoom targetUserId)).length
      if roomSize > 0 then (st1, .sent notificationId roomSize)
      else (st1, .errorNotConnected targetUserId)

/-! ### server.js — the HTTP /api/notifications/send handler -/

/-- Response of the HTTP send endpoint. -/
inductive ApiResponse where
  | badRequest (error : String)
  | ok (success : Bool) (message : String) (targetUser : String) (connectedClients : Nat)
deriving DecidableEq, Repr

/-- The /api/notifications/send handler (server.js lines 119-151): after
field validation it emits to the user room and unconditionally responds 200
success, reporting the total connected-client count; the target room's
population is never consulted (the state argument is unused). -/
def apiSendNotification (st : SocketState) (clientsCount : Nat) (userId message : String) :
    ApiResponse :=
  if userId == "" || message == "" then
    .badRequest "Missing required fields: userId, message"
  else
    .ok true "Notification sent" userId clientsCount

/-! ### lib/socket.js — module-level helpers and the uninitialized state

The module keeps `io` (set by initSocket, absent before), plus the
module-level sentNotifications and userSockets maps, which exist even while
`io` is uninitialized. -/

/-- The slice of the socket.io Server object the helpers consult. -/
structure IoState where
  rooms : List (String × List String)
  clientsCount : Nat
deriving DecidableEq, Repr

/-- Module-level state of lib/socket.js. -/
structure ModuleState where
  io : Option IoState
  sentNotifications : List (String × Nat)
  userSockets : List (String × String)
deriving DecidableEq, Repr

/-- getSocket (lib/socket.js lines 519-524): throws when io is uninitialized. -/
def getSocket (m : ModuleState) : Except String IoState :=
  match m.io with
  | none => .error "Socket.io not initialized"
  | some io => .ok io

/-- The stats object getConnectionStats builds; fields absent from the
uninitialized-branch object are `none`. -/
structure ConnectionStats where
  connected : Bool
  clientsCount : Nat
  userCount : Option Nat
  rooms : Option (List String)
  notificationCache : Option Nat
  connectedUsers : Option (List String)
  timestamp : Option String
deriving DecidableEq, Repr

/-- getConnectionStats (lib/socket.js lines 527-541): total function — with
io uninitialized it returns the two-field object
(connected false, clientsCount 0) instead of throwing. -/
def getConnectionStats (m : ModuleState) (nowIso : String) : ConnectionStats :=
  match m.io with
  | none =>
      { connected := false, clientsCount := 0, userCount := none, rooms := none,
        notificationCache := none, connectedUsers := none, timestamp := none }
  | some io =>
      { connected := true,
        clientsCount := io.clientsCount,
        userCount := some m.userSockets.length,
        rooms := some (io.rooms.map (fun e => e.1)),
        notificationCache := some m.sentNotifications.length,
        connectedUsers := some (m.userSockets.map (fun e => e.1)),
        timestamp := some nowIso }

/-- The notification object the helpers build (JavaScript field `from` is
`sender` here, `read_at` is `readAt`, always null). -/
structure Notification where
  id : String
  message : String
  type : String
  title : Option String
  timestamp : String
  sender : String
  readAt : Option String
deriving DecidableEq, Repr

/-- sendToUser (lib/socket.js lines 544-581).  Result on success: the updated
module state, the socket ids the notification event was emitted to (the
target room's members; empty when nobody is connected — the code only skips
the emit and logs), and the helper's return value (`none` models the null
returned for a cached duplicate).  Admission into sentNotifications happens
before the room is resolved, and the returned notification is built and
returned whether or not the room has members. -/
def sendToUser (m : ModuleState) (userId message ty : String) (title : Option String)
    (now : Nat) (nowIso : String) :
    Except String (ModuleState × List String × Option Notification) :=
  match m.io with
  | none => .error "Socket.io not initialized"
  | some io =>
      let notificationId := serverNotificationId userId message now
      if hasKey m.sentNotifications notificationId then
        .ok (m, [], none)
      else
        let notification : Notification :=
          { id := notificationId, message := message, type := ty, title := title,
            timestamp := nowIso, sender := "server-direct", readAt := none }
        let m1 := { m with sentNotifications := setKey m.sentNotifications notificationId now }
        .ok (m1, roomMembers io.rooms (userRoom userId), some notification)

/-- broadcastToAll (lib/socket.js lines 584-615): same shape, emitting to
every connected client (`io.emit`), so no member resolution at all. -/
def broadcastToAll (m : ModuleState) (message ty : String) (title : Option String)
    (now : Nat) (nowIso : String) :
    Except String (ModuleState × Option Notification) :=
  match m.io with
  | none => .error "Socket.io not initialized"
  | some _ =>
      let broadcastId := serverBroadcastId message now
      if hasKey m.sentNotifications broadcastId then
        .ok (m, none)
      else
        let notification : Notification :=
          { id := broadcastId, message := message, type := ty, title := title,
            timestamp := nowIso, sender := "server-direct", readAt := none }
        let m1 := { m with sentNotifications := setKey m.sentNotifications broadcastId now }
        .ok (m1, some notification)

/-! ### Subscription stores (lib/database.js and lib/mysql-database.js)

Records are (userId, subscription payload) pairs; the payload is opaque to
the store.  The JSON file's createdAt field and the MySQL row timestamps are
irrelevant to every claim and omitted. -/

/-- A backing store: subscription records in insertion order. -/
abbrev SubStore := List (String × String)

/-- addSubscription of the JSON store (lib/database.js lines 41-56): filter
out any existing record for the user, then push the new one. -/
def jsonAddSubscription (db : SubStore) (userId subscription : String) : SubStore :=
  (db.filter (fun e => !(e.1 == userId))) ++ [(userId, subscription)]

/-- getSubscription of the JSON store (lines 59-62): first record for the user. -/
def jsonGetSubscription (db : SubStore) (userId : String) : Option String :=
  lookupKey db userId

/-- removeSubscription of the JSON store (lines 71-75). -/
def jsonRemoveSubscription (db : SubStore) (userId : String) : SubStore :=
  db.filter (fun e => !(e.1 == userId))

/-- addSubscription of the MySQL store (lib/mysql-database.js lines 46-73):
DELETE FROM socket_subscriptions WHERE user_id = ?, then INSERT the new row. -/
def mysqlAddSubscription (db : SubStore) (userId subscription : String) : SubStore :=
  (db.filter (fun e => !(e.1 == userId))) ++ [(userId, subscription)]

/-- getSubscription of the MySQL store (lines 76-96): first matching row. -/
def mysqlGetSubscription (db : SubStore) (userId : String) : Option String :=
  lookupKey db userId

/-- removeSubscription of the MySQL store (lines 116-130). -/
def mysqlRemoveSubscription (db : SubStore) (userId : String) : SubStore :=
  db.filter (fun e => !(e.1 == userId))

/-! ### lib/hybrid-database.js -/

/-- A sync-queue entry ({type, userId, subscription, timestamp}). -/
inductive SyncOp where
  | add (userId subscription : String) (timestamp : String)
  | remove (userId : String) (timestamp : String)
deriving DecidableEq, Repr

/-- State of the hybrid store: both backing stores, the isOnline flag and the
sync queue.  The MySQL server's actual reachability is passed to each
operation as an explicit `mysqlUp` argument (constant for the duration of
one call). -/
structure HybridState where
  jsonStore : SubStore
  mysqlStore : SubStore
  isOnline : Bool
  syncQueue : List SyncOp
deriving DecidableEq, Repr

/-- Replay of one queue entry inside syncOfflineData (the switch on
operation.type, lines 35-42). -/
def applySyncOp (store : SubStore) (op : SyncOp) : SubStore :=
  match op with
  | .add u s _ => mysqlAddSubscription store u s
  | .remove u _ => mysqlRemoveSubscription store u

/-- syncOfflineData (lib/hybrid-database.js lines 28-52): no-op while offline
or with an empty queue; otherwise replay every queued operation in enqueue
order against MySQL and clear the queue. -/
def syncOfflineData (st : HybridState) : HybridState :=
  if !st.isOnline || st.syncQueue.isEmpty then st
  else
    { st with mysqlStore := st.syncQueue.foldl applySyncOp st.mysqlStore,
              syncQueue := [] }

/-- checkMySQLHealth (lines 9-25): update isOnline from the probe; a
degraded-to-healthy transition triggers the replay. -/
def checkMySQLHealth (st : HybridState) (mysqlUp : Bool) : HybridState :=
  let wasOffline := !st.isOnline
  let st1 := { st with isOnline := mysqlUp }
  if wasOffline && mysqlUp then syncOfflineData st1 else st1

/-- addToSyncQueue (lines 55-63). -/
def addToSyncQueue (st : HybridState) (op : SyncOp) : HybridState :=
  { st with syncQueue := st.syncQueue ++ [op] }

/-- Hybrid addSubscription (lib/hybrid-database.js lines 66-86): always write
the JSON fallback first, then health-check; while healthy also write MySQL,
while degraded append to the sync queue. -/
def hybridAddSubscription (st : HybridState) (userId subscription : String)
    (mysqlUp : Bool) (nowIso : String) : HybridState :=
  let st1 := { st with jsonStore := jsonAddSubscription st.jsonStore userId subscription }
  let st2 := checkMySQLHealth st1 mysqlUp
  if st2.isOnline then
    { st2 with mysqlStore := mysqlAddSubscription st2.mysqlStore userId subscription }
  else
    addToSyncQueue st2 (.add userId subscription nowIso)

/-- Hybrid removeSubscription (lines 124-141): same discipline for deletes. -/
def hybridRemoveSubscription (st : HybridState) (userId : String)
    (mysqlUp : Bool) (nowIso : String) : HybridState :=
  let st1 := { st with jsonStore := jsonRemoveSubscription st.jsonStore userId }
  let st2 := checkMySQLHealth st1 mysqlUp
  if st2.isOnline then
    { st2 with mysqlStore := mysqlRemoveSubscription st2.mysqlStore userId }
  else
    addToSyncQueue st2 (.remove userId nowIso)

/-- The io slice right after initialization: no rooms, no clients. -/
def freshIoState : IoState := { rooms := [], clientsCount := 0 }

/-- Module state after initSocket with no connections yet. -/
def moduleWithIo : ModuleState :=
  { io := some freshIoState, sentNotifications := [], userSockets := [] }

/-- Module state before initSocket has ever run. -/
def moduleNoIo : ModuleState :=
  { io := none, sentNotifications := [], userSockets := [] }

/-- A hybrid-store state whose durable side is currently degraded. -/
def degradedHybridState : HybridState :=
  { jsonStore := [], mysqlStore := [], isOnline := false, syncQueue := [] }

/-- Number of records a store holds for one user. -/
def countKey (db : SubStore) (k : String) : Nat :=
  (db.filter (fun e => e.1 == k)).length

/-- Invariant of one connection's user-scope state: socket.userId is u and
the connection is a member of exactly the user room for u. -/
def UserInv (st : SocketState) (sid u : String) : Prop :=
  lookupKey st.connUser sid = some u ∧
  ∀ v : String, sid ∈ roomMembers st.rooms (userRoom v) ↔ v = u

/-- Repeated application of the join-user-room handler by one connection. -/
def joinUserSeq (st : SocketState) (sid : String) (us : List String) : SocketState :=
  us.foldl (fun s u => (joinUserRoom s sid u).1) st

/-! ### Lemmas about the Map primitives -/

theorem lookupKey_nil {β : Type} (k : String) : lookupKey ([] : List (String × β)) k = none :=
  rfl

theorem lookupKey_cons {β : Type} (e : String × β) (l : List (String × β)) (k : String) :
    lookupKey (e :: l) k = if e.1 == k then some e.2 else lookupKey l k := by
  cases hbe : e.1 == k <;> simp [lookupKey, List.find?, hbe]

theorem hasKey_cons {β : Type} (e : String × β) (l : List (String × β)) (k : String) :
    hasKey (e :: l) k = (e.1 == k || hasKey l k) :=
  rfl

theorem lookupKey_setKey_self {β : Type} (l : List (String × β)) (k : String) (v : β) :
    lookupKey (setKey l k v) k = some v := by
  induction l with
  | nil => simp [setKey, lookupKey_cons, lookupKey_nil]
  | cons e l ih =>
      by_cases h : e.1 = k
      · simp [setKey, h, lookupKey_cons]
      · simp [setKey, h, lookupKey_cons, ih]

theorem lookupKey_setKey_ne {β : Type} (l : List (String × β)) {k k' : String} (v : β)
    (h : k' ≠ k) : lookupKey (setKey l k v) k' = lookupKey l k' := by
  induction l with
  | nil => simp [setKey, lookupKey_cons, lookupKey_nil, Ne.symm h]
  | cons e l ih =>
      by_cases he : e.1 = k
      · simp [setKey, he, lookupKey_cons, Ne.symm h]
      · simp [setKey, he, lookupKey_cons, ih]

theorem delKey_cons_self {β : Type} (e : String × β) (l : List (String × β)) (k : String)
    (h : e.1 = k) : delKey (e :: l) k = delKey l k := by
  simp [delKey, h]

theorem delKey_cons_ne {β : Type} (e : String × β) (l : List (String × β)) (k : String)
    (h : ¬e.1 = k) : delKey (e :: l) k = e :: delKey l k := by
  simp [delKey, h]

theorem lookupKey_delKey_self {β : Type} (l : List (String × β)) (k : String) :
    lookupKey (delKey l k) k = none := by
  induction l with
  | nil => rfl
  | cons e l ih =>
      by_cases h : e.1 = k
      · rw [delKey_cons_self e l k h]; exact ih
      · rw [delKey_cons_ne e l k h, lookupKey_cons]
        simp [h]
        exact ih

theorem lookupKey_delKey_ne {β : Type} (l : List (String × β)) {k k' : String}
    (h : k' ≠ k) : lookupKey (delKey l k) k' = lookupKey l k' := by
  induction l with
  | nil => rfl
  | cons e l ih =>
      by_cases he : e.1 = k
      · have hne : ¬e.1 = k' := by rw [he]; exact fun hh => h hh.symm
        rw [delKey_cons_self e l k he, ih, lookupKey_cons]
        simp [hne]
      · rw [delKey_cons_ne e l k he, lookupKey_cons, lookupKey_cons, ih]

theorem hasKey_setKey_self {β : Type} (l : List (String × β)) (k : String) (v : β) :
    hasKey (setKey l k v) k = true := by
  induction l with
  | nil => simp [setKey, hasKey]
  | cons e l ih =>
      by_cases h : e.1 = k
      · simp [setKey, h, hasKey]
      · have hstep : setKey (e :: l) k v = e :: setKey l k v := by simp [setKey, h]
        rw [hstep, hasKey_cons, ih, Bool.or_true]

theorem hasKey_eq_false_of_lookupKey_none {β : Type} (l : List (String × β)) (k : String)
    (h : lookupKey l k = none) : hasKey l k = false := by
  induction l with
  | nil => rfl
  | cons e l ih =>
      rw [lookupKey_cons] at h
      by_cases he : e.1 = k
      · simp [he] at h
      · have hb : (e.1 == k) = false := by simp [he]
        rw [hb] at h
        simp only [Bool.false_eq_true, if_false] at h
        rw [hasKey_cons, hb, ih h]
        rfl

theorem lookupKey_none_of_hasKey_eq_false {β : Type} (l : List (String × β)) (k : String)
    (h : hasKey l k = false) : lookupKey l k = none := by
  induction l with
  | nil => rfl
  | cons e l ih =>
      rw [hasKey_cons] at h
      rcases Bool.or_eq_false_iff.mp h with ⟨h1, h2⟩
      rw [lookupKey_cons, h1]
      simpa using ih h2

/-! ### Lemmas about the room registry -/

theorem mem_roomMembers_roomJoin_self (rooms : List (String × List String)) (r sid : String) :
    sid ∈ roomMembers (roomJoin rooms r sid) r := by
  unfold roomJoin
  cases h : lookupKey rooms r with
  | none => simp [roomMembers, lookupKey_setKey_self]
  | some ms =>
      simp only [roomMembers, lookupKey_setKey_self, Option.getD_some]
      by_cases hc : sid ∈ ms
      · simp [hc]
      · simp [hc]

theorem roomMembers_roomJoin_ne (rooms : List (String × List String)) {r r' : String}
    (sid : String) (h : r' ≠ r) :
    roomMembers (roomJoin rooms r sid) r' = roomMembers rooms r' := by
  unfold roomJoin
  cases lookupKey rooms r with
  | none => simp [roomMembers, lookupKey_setKey_ne _ _ h]
  | some ms => simp [roomMembers, lookupKey_setKey_ne _ _ h]

theorem mem_roomMembers_roomJoin_of_mem (rooms : List (String × List String))
    {r' : String} (r sid x : String) (hx : x ∈ roomMembers rooms r') :
    x ∈ roomMembers (roomJoin rooms r sid) r' := by
  by_cases hr : r' = r
  · subst hr
    unfold roomJoin
    cases h : lookupKey rooms r' with
    | none => simp [roomMembers, h] at hx
    | some ms =>
        simp only [roomMembers, h, Option.getD_some] at hx
        simp only [roomMembers, lookupKey_setKey_self, Option.getD_some]
        by_cases hc : sid ∈ ms
        · simp [hc, hx]
        · have hb : ms.contains sid = false := by
            cases hcc : ms.contains sid
            · rfl
            · exact absurd (List.elem_iff.mp hcc) hc
          rw [hb, if_neg (by simp)]
          exact List.mem_append_left _ hx
  · rw [roomMembers_roomJoin_ne rooms sid hr]
    exact hx

theorem roomMembers_roomLeave_self (rooms : List (String × List String)) (r sid : String) :
    roomMembers (roomLeave rooms r sid) r
      = (roomMembers rooms r).filter (fun s => !(s == sid)) := by
  unfold roomLeave
  cases h : lookupKey rooms r with
  | none => simp [roomMembers, h]
  | some ms =>
      simp only [roomMembers, h, Option.getD_some]
      by_cases he : (ms.filter (fun s => !(s == sid))).isEmpty
      · simp only [he, if_true]
        rw [List.isEmpty_iff] at he
        simp [lookupKey_delKey_self, he]
      · simp [he, lookupKey_setKey_self]

theorem roomMembers_roomLeave_ne (rooms : List (String × List String)) {r r' : String}
    (sid : String) (h : r' ≠ r) :
    roomMembers (roomLeave rooms r sid) r' = roomMembers rooms r' := by
  unfold roomLeave
  cases lookupKey rooms r with
  | none => rfl
  | some ms =>
      by_cases he : (ms.filter (fun s => !(s == sid))).isEmpty
      · simp [he, roomMembers, lookupKey_delKey_ne _ h]
      · simp [he, roomMembers, lookupKey_setKey_ne _ _ h]

theorem not_mem_roomMembers_roomLeave_self (rooms : List (String × List String))
    (r sid : String) : sid ∉ roomMembers (roomLeave rooms r sid) r := by
  rw [roomMembers_roomLeave_self]
  intro hmem
  rcases List.mem_filter.mp hmem with ⟨_, hkeep⟩
  simp at hkeep

/-! ### Room-name prefixes are injective -/

theorem string_append_left_cancel {s a b : String} (h : s ++ a = s ++ b) : a = b := by
  have h2 : s.data ++ a.data = s.data ++ b.data := congrArg String.data h
  exact String.ext (List.append_cancel_left h2)

theorem userRoom_inj {a b : String} (h : userRoom a = userRoom b) : a = b :=
  string_append_left_cancel h

theorem companyRoom_inj {a b : String} (h : companyRoom a = companyRoom b) : a = b :=
  string_append_left_cancel h

/-! ### Lemmas about the subscription stores -/

theorem lookupKey_upsert_self (db : SubStore) (u p : String) :
    lookupKey ((db.filter (fun e => !(e.1 == u))) ++ [(u, p)]) u = some p := by
  induction db with
  | nil => simp [lookupKey_cons]
  | cons e db ih =>
      by_cases h : e.1 = u
      · simpa [h] using ih
      · simpa [h, lookupKey_cons] using ih

theorem jsonGetSubscription_jsonAddSubscription_self (db : SubStore) (u p : String) :
    jsonGetSubscription (jsonAddSubscription db u p) u = some p :=
  lookupKey_upsert_self db u p

theorem mysqlGetSubscription_mysqlAddSubscription_self (db : SubStore) (u p : String) :
    mysqlGetSubscription (mysqlAddSubscription db u p) u = some p :=
  lookupKey_upsert_self db u p

theorem jsonGetSubscription_jsonRemoveSubscription_self (db : SubStore) (u : String) :
    jsonGetSubscription (jsonRemoveSubscription db u) u = none :=
  lookupKey_delKey_self db u

theorem mysqlGetSubscription_mysqlRemoveSubscription_self (db : SubStore) (u : String) :
    mysqlGetSubscription (mysqlRemoveSubscription db u) u = none :=
  lookupKey_delKey_self db u

theorem filter_key_of_filter_not_key (db : SubStore) (u : String) :
    (db.filter (fun e => !(e.1 == u))).filter (fun e => e.1 == u) = [] := by
  induction db with
  | nil => rfl
  | cons e db ih => by_cases h : e.1 = u <;> simp [h, ih]

theorem filter_key_filter_not_other (db : SubStore) {u v : String} (h : v ≠ u) :
    (db.filter (fun e => !(e.1 == u))).filter (fun e => e.1 == v)
      = db.filter (fun e => e.1 == v) := by
  rw [List.filter_filter]
  apply List.filter_congr
  intro a _
  by_cases hv : a.1 = v
  · have hu : ¬a.1 = u := by rw [hv]; exact h
    simp [hv, hu, h]
  · simp [hv]

theorem filter_not_key_idem (db : SubStore) (u : String) :
    (db.filter (fun e => !(e.1 == u))).filter (fun e => !(e.1 == u))
      = db.filter (fun e => !(e.1 == u)) := by
  induction db with
  | nil => rfl
  | cons e db ih => by_cases h : e.1 = u <;> simp [h, ih]

theorem countKey_jsonAddSubscription_self (db : SubStore) (u p : String) :
    countKey (jsonAddSubscription db u p) u = 1 := by
  unfold countKey jsonAddSubscription
  rw [List.filter_append, filter_key_of_filter_not_key]
  simp

theorem countKey_jsonAddSubscription_other (db : SubStore) {u v : String} (p : String)
    (h : v ≠ u) : countKey (jsonAddSubscription db u p) v = countKey db v := by
  unfold countKey jsonAddSubscription
  rw [List.filter_append, filter_key_filter_not_other db h]
  simp [Ne.symm h]

theorem jsonAddSubscription_idem (db : SubStore) (u p : String) :
    jsonAddSubscription (jsonAddSubscription db u p) u p = jsonAddSubscription db u p := by
  unfold jsonAddSubscription
  rw [List.filter_append, filter_not_key_idem]
  simp

/-! ### Lemmas about the dedup cache -/

theorem sweep_cons (e : String × Nat) (l : List (String × Nat)) (t : Nat) :
    sweep (e :: l) t
      = if e.2 < t - RETENTION_MS then sweep l t else e :: sweep l t := by
  unfold sweep
  rw [List.filter_cons]
  by_cases h : e.2 < t - RETENTION_MS <;> simp [h]

theorem hasKey_sweep_setKey_kept (c : List (String × Nat)) (f : String) (t0 t1 : Nat)
    (hfresh : hasKey c f = false) (hkeep : ¬t0 < t1 - RETENTION_MS) :
    hasKey (sweep (setKey c f t0) t1) f = true := by
  induction c with
  | nil =>
      show hasKey (sweep [(f, t0)] t1) f = true
      rw [sweep_cons, if_neg hkeep, hasKey_cons]
      simp [sweep]
  | cons e c ih =>
      rw [hasKey_cons] at hfresh
      rcases Bool.or_eq_false_iff.mp hfresh with ⟨h1, h2⟩
      have hs : setKey (e :: c) f t0 = e :: setKey c f t0 := by simp [setKey, h1]
      rw [hs, sweep_cons]
      by_cases hp : e.2 < t1 - RETENTION_MS
      · rw [if_pos hp]
        exact ih h2
      · rw [if_neg hp, hasKey_cons, ih h2, Bool.or_true]

theorem hasKey_sweep_setKey_dropped (c : List (String × Nat)) (f : String) (t0 t2 : Nat)
    (hfresh : hasKey c f = false) (hdrop : t0 < t2 - RETENTION_MS) :
    hasKey (sweep (setKey c f t0) t2) f = false := by
  induction c with
  | nil =>
      show hasKey (sweep [(f, t0)] t2) f = false
      rw [sweep_cons, if_pos hdrop]
      rfl
  | cons e c ih =>
      rw [hasKey_cons] at hfresh
      rcases Bool.or_eq_false_iff.mp hfresh with ⟨h1, h2⟩
      have hs : setKey (e :: c) f t0 = e :: setKey c f t0 := by simp [setKey, h1]
      rw [hs, sweep_cons]
      by_cases hp : e.2 < t2 - RETENTION_MS
      · rw [if_pos hp]
        exact ih h2
      · rw [if_neg hp, hasKey_cons, h1, ih h2]
        rfl

/-! ### Claim theorems -/

/-- C3 (code bug): the fingerprint derivation is NOT stable across time.  The
code embeds the exact millisecond clock value (Date.now()) in every derived
identifier, so two derivations of the fingerprint for the same target user
and message at different times yield different fingerprints, in all three
derivation sites (send-notification handler, sendToUser, broadcast).  This
defeats the duplicate-prevention cache the identifiers feed. -/
theorem fingerprint_depends_on_call_time :
    notificationFingerprint "u1" "hello" 1000 = "user-u1-1000-hello" ∧
    notificationFingerprint "u1" "hello" 2000 = "user-u1-2000-hello" ∧
    notificationFingerprint "u1" "hello" 1000 ≠ notificationFingerprint "u1" "hello" 2000 ∧
    serverNotificationId "u1" "hello" 1000 ≠ serverNotificationId "u1" "hello" 2000 ∧
    broadcastFingerprint "hello" 1000 ≠ broadcastFingerprint "hello" 2000 := by
  refine ⟨by decide, by decide, by decide, by decide, by decide⟩

/-- C2 (amended): the first admitFingerprint of a fresh fingerprint returns true and
records the current time; any later admitFingerprint while the entry is still cached
returns false (duplicates within the retention window included); admitFingerprint
returns true again only once a cleanup sweep run at a time strictly beyond
the recorded time plus the retention window has removed the entry. -/
theorem dedup_cache_behavior (c : List (String × Nat)) (f : String) (t0 t1 t2 : Nat)
    (hfresh : hasKey c f = false)
    (h1 : t1 ≤ t0 + RETENTION_MS) (h2 : t0 + RETENTION_MS < t2) :
    (admitFingerprint c f t0).1 = true ∧
    lookupKey (admitFingerprint c f t0).2 f = some t0 ∧
    (admitFingerprint (sweep (admitFingerprint c f t0).2 t1) f t1).1 = false ∧
    (admitFingerprint (sweep (admitFingerprint c f t0).2 t2) f t2).1 = true := by
  have hset : admitFingerprint c f t0 = (true, setKey c f t0) := by simp [admitFingerprint, hfresh]
  refine ⟨by rw [hset], ?_, ?_, ?_⟩
  · rw [hset]
    exact lookupKey_setKey_self c f t0
  · rw [hset]
    have hk : hasKey (sweep (setKey c f t0) t1) f = true :=
      hasKey_sweep_setKey_kept c f t0 t1 hfresh (by unfold RETENTION_MS at h1 ⊢; omega)
    simp [admitFingerprint, hk]
  · rw [hset]
    have hk : hasKey (sweep (setKey c f t0) t2) f = false :=
      hasKey_sweep_setKey_dropped c f t0 t2 hfresh (by unfold RETENTION_MS at h2 ⊢; omega)
    simp [admitFingerprint, hk]

/-- C2 witness instantiating dedup_cache_behavior at concrete inputs. -/
theorem dedup_cache_behavior_witness :
    hasKey ([] : List (String × Nat)) "f1" = false ∧ 1100000 ≤ 1000000 + RETENTION_MS ∧
    1000000 + RETENTION_MS < 1300001 ∧
    ((admitFingerprint [] "f1" 1000000).1 = true ∧
     lookupKey (admitFingerprint [] "f1" 1000000).2 "f1" = some 1000000 ∧
     (admitFingerprint (sweep (admitFingerprint [] "f1" 1000000).2 1100000) "f1" 1100000).1 = false ∧
     (admitFingerprint (sweep (admitFingerprint [] "f1" 1000000).2 1300001) "f1" 1300001).1 = true) :=
  ⟨by decide, by decide, by decide,
   dedup_cache_behavior [] "f1" 1000000 1100000 1300001 (by decide) (by decide) (by decide)⟩

/-- C2 counterexample to the claim as stated: a fingerprint is recorded at
time 1000000; the retention window (5 minutes) has fully elapsed by time
1300001, and sweeps have run every minute in between (none of them eligible
to evict the entry yet), but admitFingerprint still returns false because the send
paths test only membership, never age. -/
theorem dedup_after_window_counterexample :
    1000000 + RETENTION_MS < 1300001 ∧
    (admitFingerprint (([1060000, 1120000, 1180000, 1240000, 1300000].foldl sweep
        (admitFingerprint [] "f1" 1000000).2)) "f1" 1300001).1 = false := by
  refine ⟨by decide, by decide⟩

/-- C5: each backing store keeps at most one subscription record per user:
upserting leaves exactly one record for the target user, preserves the
at-most-one invariant for every other user, and is literally idempotent —
replaying the same add (as a repeated sync-queue replay does) produces the
identical store, for the JSON store and the MySQL store alike. -/
theorem subscription_upsert_unique (db : SubStore) (u p : String)
    (hinv : ∀ v : String, countKey db v ≤ 1) :
    countKey (jsonAddSubscription db u p) u = 1 ∧
    (∀ v : String, countKey (jsonAddSubscription db u p) v ≤ 1) ∧
    jsonAddSubscription (jsonAddSubscription db u p) u p = jsonAddSubscription db u p ∧
    countKey (mysqlAddSubscription db u p) u = 1 ∧
    (∀ v : String, countKey (mysqlAddSubscription db u p) v ≤ 1) ∧
    mysqlAddSubscription (mysqlAddSubscription db u p) u p = mysqlAddSubscription db u p := by
  have hone := countKey_jsonAddSubscription_self db u p
  have hbound : ∀ v : String, countKey (jsonAddSubscription db u p) v ≤ 1 := by
    intro v
    by_cases hv : v = u
    · subst hv
      rw [countKey_jsonAddSubscription_self]
    · rw [countKey_jsonAddSubscription_other db p hv]
      exact hinv v
  exact ⟨hone, hbound, jsonAddSubscription_idem db u p,
         hone, hbound, jsonAddSubscription_idem db u p⟩

/-- C5 witness: the empty store satisfies the invariant; instantiate. -/
theorem subscription_upsert_unique_witness :
    (∀ v : String, countKey [] v ≤ 1) ∧
    (countKey (jsonAddSubscription [] "u1" "payload") "u1" = 1 ∧
     (∀ v : String, countKey (jsonAddSubscription [] "u1" "payload") v ≤ 1) ∧
     jsonAddSubscription (jsonAddSubscription [] "u1" "payload") "u1" "payload"
       = jsonAddSubscription [] "u1" "payload" ∧
     countKey (mysqlAddSubscription [] "u1" "payload") "u1" = 1 ∧
     (∀ v : String, countKey (mysqlAddSubscription [] "u1" "payload") v ≤ 1) ∧
     mysqlAddSubscription (mysqlAddSubscription [] "u1" "payload") "u1" "payload"
       = mysqlAddSubscription [] "u1" "payload") := by
  have hw : ∀ v : String, countKey [] v ≤ 1 := by
    intro v
    simp [countKey]
  exact ⟨hw, subscription_upsert_unique [] "u1" "payload" hw⟩

/-- C9: a server-side sendToUser call with a fresh fingerprint records the
dedup entry and returns the notification object regardless of the target
room's population: the result is a single expression in which the room
contents affect only the list of sockets emitted to, never the cache update
or the returned notification, so an undelivered event still consumes its
dedup entry and the return value does not distinguish delivered from
undelivered. -/
theorem sendToUser_admits_before_resolution (m : ModuleState) (io : IoState)
    (u msg ty : String) (title : Option String) (now : Nat) (iso : String)
    (hio : m.io = some io)
    (hfresh : hasKey m.sentNotifications (serverNotificationId u msg now) = false) :
    sendToUser m u msg ty title now iso
      = .ok ({ m with
               sentNotifications := setKey m.sentNotifications (serverNotificationId u msg now) now },
             roomMembers io.rooms (userRoom u),
             some { id := serverNotificationId u msg now, message := msg, type := ty,
                    title := title, timestamp := iso, sender := "server-direct",
                    readAt := none }) := by
  simp [sendToUser, hio, hfresh]

/-- C9 witness: uninhabited target room — the entry is still recorded and
the notification still returned. -/
theorem sendToUser_admits_before_resolution_witness :
    moduleWithIo.io = some freshIoState ∧
    hasKey moduleWithIo.sentNotifications (serverNotificationId "u1" "hi" 7) = false ∧
    sendToUser moduleWithIo "u1" "hi" "info" none 7 "t0"
      = .ok ({ moduleWithIo with
               sentNotifications := setKey moduleWithIo.sentNotifications (serverNotificationId "u1" "hi" 7) 7 },
             roomMembers freshIoState.rooms (userRoom "u1"),
             some { id := serverNotificationId "u1" "hi" 7, message := "hi", type := "info",
                    title := none, timestamp := "t0", sender := "server-direct",
                    readAt := none }) :=
  ⟨rfl, by decide,
   sendToUser_admits_before_resolution moduleWithIo freshIoState "u1" "hi" "info" none 7 "t0"
     rfl (by decide)⟩

/-- C10: with the socket server not yet initialized, getConnectionStats is a
total function returning the two-field object (connected false, count 0),
while getSocket, sendToUser and broadcastToAll all fail with the
"Socket.io not initialized" error. -/
theorem uninitialized_module_behavior (m : ModuleState) (u msg ty : String)
    (title : Option String) (now : Nat) (iso : String) (hio : m.io = none) :
    getConnectionStats m iso
      = { connected := false, clientsCount := 0, userCount := none, rooms := none,
          notificationCache := none, connectedUsers := none, timestamp := none } ∧
    getSocket m = .error "Socket.io not initialized" ∧
    sendToUser m u msg ty title now iso = .error "Socket.io not initialized" ∧
    broadcastToAll m msg ty title now iso = .error "Socket.io not initialized" := by
  refine ⟨?_, ?_, ?_, ?_⟩ <;>
    simp [getConnectionStats, getSocket, sendToUser, broadcastToAll, hio]

/-- C10 witness at the fresh (pre-initSocket) module state. -/
theorem uninitialized_module_behavior_witness :
    moduleNoIo.io = none ∧
    (getConnectionStats moduleNoIo "t0"
      = { connected := false, clientsCount := 0, userCount := none, rooms := none,
          notificationCache := none, connectedUsers := none, timestamp := none } ∧
     getSocket moduleNoIo = .error "Socket.io not initialized" ∧
     sendToUser moduleNoIo "u1" "hi" "info" none 7 "t0"
       = .error "Socket.io not initialized" ∧
     broadcastToAll moduleNoIo "hi" "info" none 7 "t0"
       = .error "Socket.io not initialized") :=
  ⟨rfl, uninitialized_module_behavior moduleNoIo "u1" "hi" "info" none 7 "t0" rfl⟩

/-- C1 (amended): a scoped send whose target room is empty is answered with
the notification-error event "Target user not connected", not a success
carrying a zero count — and the dedup entry has already been consumed by
then; the HTTP /api/notifications/send endpoint, by contrast, answers
success unconditionally, reporting the total connected-client count rather
than any delivered count. -/
theorem send_to_empty_scope_errors (st : SocketState) (target message : String) (now : Nat)
    (htarget : target ≠ "") (hmessage : message ≠ "")
    (hfresh : hasKey st.sentNotifications (notificationFingerprint target message now) = false)
    (hempty : roomMembers st.rooms (userRoom target) = []) :
    (sendNotification st target message now).2 = SendOutcome.errorNotConnected target ∧
    hasKey (sendNotification st target message now).1.sentNotifications
      (notificationFingerprint target message now) = true ∧
    ∀ (st2 : SocketState) (clients : Nat),
      apiSendNotification st2 clients target message
        = ApiResponse.ok true "Notification sent" target clients := by
  have hred : sendNotification st target message now
      = ({ st with
           sentNotifications := setKey st.sentNotifications (notificationFingerprint target message now) now },
         SendOutcome.errorNotConnected target) := by
    simp [sendNotification, htarget, hmessage, hfresh, hempty]
  refine ⟨by rw [hred], ?_, ?_⟩
  · rw [hred]
    exact hasKey_setKey_self st.sentNotifications _ now
  · intro st2 clients
    simp [apiSendNotification, htarget, hmessage]

/-- C1 witness instantiating send_to_empty_scope_errors at a fresh server. -/
theorem send_to_empty_scope_errors_witness :
    ("u1" : String) ≠ "" ∧ ("hi" : String) ≠ "" ∧
    hasKey initialSocketState.sentNotifications (notificationFingerprint "u1" "hi" 5) = false ∧
    roomMembers initialSocketState.rooms (userRoom "u1") = [] ∧
    ((sendNotification initialSocketState "u1" "hi" 5).2 = SendOutcome.errorNotConnected "u1" ∧
     hasKey (sendNotification initialSocketState "u1" "hi" 5).1.sentNotifications
       (notificationFingerprint "u1" "hi" 5) = true ∧
     ∀ (st2 : SocketState) (clients : Nat),
       apiSendNotification st2 clients "u1" "hi"
         = ApiResponse.ok true "Notification sent" "u1" clients) :=
  ⟨by decide, by decide, by decide, by decide,
   send_to_empty_scope_errors initialSocketState "u1" "hi" 5 (by decide) (by decide)
     (by decide) (by decide)⟩

/-- C1 counterexample to the claim as stated: on a fresh server (target user
not connected) the send-notification handler emits an error event to the
requester, not a success response with a zero delivered-count. -/
theorem send_to_empty_scope_counterexample :
    (sendNotification initialSocketState "u1" "hi" 1000).2
      = SendOutcome.errorNotConnected "u1" := by
  decide

/-- C8 (amended): user-room and company-room join requests with a missing
identifier are rejected synchronously with a join-error event and zero state
mutation; a waiter-room join treats its company identifier as optional —
with it absent the connection still joins the global waiters room and
receives a success event. -/
theorem scope_join_missing_id (st : SocketState) (sid u c : String) :
    joinUserRoom st sid "" = (st, SocketReply.joinError "User ID is required") ∧
    joinCompanyRoom st sid "" c
      = (st, SocketReply.joinError "User ID and Company ID are required") ∧
    joinCompanyRoom st sid u ""
      = (st, SocketReply.joinError "User ID and Company ID are required") ∧
    (joinWaiterRoom st sid "").2 = SocketReply.joinedWaiterRoom true "" ∧
    sid ∈ roomMembers ((joinWaiterRoom st sid "").1).rooms "waiters" := by
  refine ⟨rfl, rfl, ?_, rfl, ?_⟩
  · simp [joinCompanyRoom]
  · have hred : (joinWaiterRoom st sid "").1
        = { st with rooms := roomJoin st.rooms "waiters" sid } := by
      simp [joinWaiterRoom]
    rw [hred]
    exact mem_roomMembers_roomJoin_self st.rooms "waiters" sid

/-- C8 counterexample to the claim as stated: a waiter-room join with an
absent company identifier is not rejected — it emits a success event and
mutates the registry (the connection enters the global waiters room). -/
theorem waiter_join_missing_id_counterexample :
    (joinWaiterRoom initialSocketState "s1" "").2 = SocketReply.joinedWaiterRoom true "" ∧
    (joinWaiterRoom initialSocketState "s1" "").1 ≠ initialSocketState ∧
    "s1" ∈ roomMembers ((joinWaiterRoom initialSocketState "s1" "").1).rooms "waiters" := by
  refine ⟨by decide, by decide, by decide⟩

/-- C4: a write submitted while the durable store is degraded lands in the
JSON fallback before the call returns, is appended to the sync queue, and
the next successful health check replays the queue so the operation is
reflected in the durable (MySQL) store and the queue drains — for upserts
and for deletes. -/
theorem hybrid_degraded_write_replay (st : HybridState) (u p tadd trem : String)
    (hdeg : st.isOnline = false) :
    jsonGetSubscription (hybridAddSubscription st u p false tadd).jsonStore u = some p ∧
    (hybridAddSubscription st u p false tadd).syncQueue
      = st.syncQueue ++ [SyncOp.add u p tadd] ∧
    mysqlGetSubscription
      (checkMySQLHealth (hybridAddSubscription st u p false tadd) true).mysqlStore u
      = some p ∧
    (checkMySQLHealth (hybridAddSubscription st u p false tadd) true).syncQueue = [] ∧
    jsonGetSubscription (hybridRemoveSubscription st u false trem).jsonStore u = none ∧
    (hybridRemoveSubscription st u false trem).syncQueue
      = st.syncQueue ++ [SyncOp.remove u trem] ∧
    mysqlGetSubscription
      (checkMySQLHealth (hybridRemoveSubscription st u false trem) true).mysqlStore u
      = none := by
  have hA : hybridAddSubscription st u p false tadd
      = { jsonStore := jsonAddSubscription st.jsonStore u p,
          mysqlStore := st.mysqlStore, isOnline := false,
          syncQueue := st.syncQueue ++ [SyncOp.add u p tadd] } := by
    simp [hybridAddSubscription, checkMySQLHealth, addToSyncQueue]
  have hR : hybridRemoveSubscription st u false trem
      = { jsonStore := jsonRemoveSubscription st.jsonStore u,
          mysqlStore := st.mysqlStore, isOnline := false,
          syncQueue := st.syncQueue ++ [SyncOp.remove u trem] } := by
    simp [hybridRemoveSubscription, checkMySQLHealth, addToSyncQueue]
  have hQA : (st.syncQueue ++ [SyncOp.add u p tadd]).isEmpty = false := by simp
  have hQR : (st.syncQueue ++ [SyncOp.remove u trem]).isEmpty = false := by simp
  have hreplayA : checkMySQLHealth (hybridAddSubscription st u p false tadd) true
      = { jsonStore := jsonAddSubscription st.jsonStore u p,
          mysqlStore := (st.syncQueue ++ [SyncOp.add u p tadd]).foldl applySyncOp st.mysqlStore,
          isOnline := true, syncQueue := [] } := by
    rw [hA]
    simp [checkMySQLHealth, syncOfflineData, hQA]
  have hreplayR : checkMySQLHealth (hybridRemoveSubscription st u false trem) true
      = { jsonStore := jsonRemoveSubscription st.jsonStore u,
          mysqlStore := (st.syncQueue ++ [SyncOp.remove u trem]).foldl applySyncOp st.mysqlStore,
          isOnline := true, syncQueue := [] } := by
    rw [hR]
    simp [checkMySQLHealth, syncOfflineData, hQR]
  refine ⟨?_, ?_, ?_, ?_, ?_, ?_, ?_⟩
  · rw [hA]
    exact jsonGetSubscription_jsonAddSubscription_self st.jsonStore u p
  · rw [hA]
  · rw [hreplayA]
    show mysqlGetSubscription
      ((st.syncQueue ++ [SyncOp.add u p tadd]).foldl applySyncOp st.mysqlStore) u = some p
    rw [List.foldl_append]
    exact mysqlGetSubscription_mysqlAddSubscription_self _ u p
  · rw [hreplayA]
  · rw [hR]
    exact jsonGetSubscription_jsonRemoveSubscription_self st.jsonStore u
  · rw [hR]
  · rw [hreplayR]
    show mysqlGetSubscription
      ((st.syncQueue ++ [SyncOp.remove u trem]).foldl applySyncOp st.mysqlStore) u = none
    rw [List.foldl_append]
    exact mysqlGetSubscription_mysqlRemoveSubscription_self _ u

/-- C4 witness at a concrete degraded state. -/
theorem hybrid_degraded_write_replay_witness :
    degradedHybridState.isOnline = false ∧
    (jsonGetSubscription
       (hybridAddSubscription degradedHybridState "u1" "sub1" false "t1").jsonStore "u1"
       = some "sub1" ∧
     (hybridAddSubscription degradedHybridState "u1" "sub1" false "t1").syncQueue
       = degradedHybridState.syncQueue ++ [SyncOp.add "u1" "sub1" "t1"] ∧
     mysqlGetSubscription
       (checkMySQLHealth (hybridAddSubscription degradedHybridState "u1" "sub1" false "t1")
          true).mysqlStore "u1" = some "sub1" ∧
     (checkMySQLHealth (hybridAddSubscription degradedHybridState "u1" "sub1" false "t1")
        true).syncQueue = [] ∧
     jsonGetSubscription
       (hybridRemoveSubscription degradedHybridState "u1" false "t2").jsonStore "u1" = none ∧
     (hybridRemoveSubscription degradedHybridState "u1" false "t2").syncQueue
       = degradedHybridState.syncQueue ++ [SyncOp.remove "u1" "t2"] ∧
     mysqlGetSubscription
       (checkMySQLHealth (hybridRemoveSubscription degradedHybridState "u1" false "t2")
          true).mysqlStore "u1" = none) :=
  ⟨rfl, hybrid_degraded_write_replay degradedHybridState "u1" "sub1" "t1" "t2" rfl⟩

/-! ### Reduction lemmas for the join handlers -/

theorem joinUserRoom_none_case (st : SocketState) (sid u : String) (hu : u ≠ "")
    (hnone : lookupKey st.connUser sid = none) :
    joinUserRoom st sid u
      = ({ st with rooms := roomJoin st.rooms (userRoom u) sid,
                   connUser := setKey st.connUser sid u,
                   userSockets := setKey st.userSockets u sid },
         SocketReply.joinedRoom u sid (userRoom u)) := by
  simp [joinUserRoom, hnone, hu]

theorem joinUserRoom_some_case (st : SocketState) (sid u prev : String) (hu : u ≠ "")
    (hsome : lookupKey st.connUser sid = some prev) :
    joinUserRoom st sid u
      = ({ st with rooms := roomJoin (roomLeave st.rooms (userRoom prev) sid) (userRoom u) sid,
                   connUser := setKey st.connUser sid u,
                   userSockets := setKey (delKey st.userSockets prev) u sid },
         SocketReply.joinedRoom u sid (userRoom u)) := by
  simp [joinUserRoom, hsome, hu]

theorem joinCompanyRoom_none_case (st : SocketState) (sid u c : String)
    (hu : u ≠ "") (hc : c ≠ "") (hnone : lookupKey st.connCompany sid = none) :
    joinCompanyRoom st sid u c
      = ({ st with rooms := roomJoin st.rooms (companyRoom c) sid,
                   connCompany := setKey st.connCompany sid c },
         SocketReply.joinedCompanyRoom u c sid (companyRoom c)) := by
  simp [joinCompanyRoom, hnone, hu, hc]

theorem joinCompanyRoom_some_case (st : SocketState) (sid u c prev : String)
    (hu : u ≠ "") (hc : c ≠ "") (hsome : lookupKey st.connCompany sid = some prev) :
    joinCompanyRoom st sid u c
      = ({ st with rooms := roomJoin (roomLeave st.rooms (companyRoom prev) sid) (companyRoom c) sid,
                   connCompany := setKey st.connCompany sid c },
         SocketReply.joinedCompanyRoom u c sid (companyRoom c)) := by
  simp [joinCompanyRoom, hsome, hu, hc]

theorem joinWaiterRoom_nonempty_case (st : SocketState) (sid c : String) (hc : c ≠ "") :
    joinWaiterRoom st sid c
      = ({ st with rooms := roomJoin (roomJoin st.rooms (waiterRoom c) sid) "waiters" sid },
         SocketReply.joinedWaiterRoom true c) := by
  simp [joinWaiterRoom, hc]

/-! ### The user-scope invariant is established and preserved -/

theorem joinUserRoom_inv_of_clean (st : SocketState) (sid u : String) (hu : u ≠ "")
    (hnone : lookupKey st.connUser sid = none)
    (hrooms : ∀ v : String, sid ∉ roomMembers st.rooms (userRoom v)) :
    UserInv (joinUserRoom st sid u).1 sid u := by
  rw [joinUserRoom_none_case st sid u hu hnone]
  constructor
  · exact lookupKey_setKey_self st.connUser sid u
  · intro v
    by_cases hv : v = u
    · subst hv
      exact iff_of_true (mem_roomMembers_roomJoin_self st.rooms (userRoom v) sid) rfl
    · have hroom : userRoom v ≠ userRoom u := fun hh => hv (userRoom_inj hh)
      constructor
      · intro hmem
        rw [roomMembers_roomJoin_ne st.rooms sid hroom] at hmem
        exact absurd hmem (hrooms v)
      · intro hh
        exact absurd hh hv

theorem joinUserRoom_inv_step (st : SocketState) (sid u w : String) (hw : w ≠ "")
    (hinv : UserInv st sid u) :
    UserInv (joinUserRoom st sid w).1 sid w := by
  rcases hinv with ⟨hcu, hmem⟩
  rw [joinUserRoom_some_case st sid w u hw hcu]
  constructor
  · exact lookupKey_setKey_self st.connUser sid w
  · intro v
    by_cases hv : v = w
    · subst hv
      exact iff_of_true
        (mem_roomMembers_roomJoin_self (roomLeave st.rooms (userRoom u) sid) (userRoom v) sid)
        rfl
    · have hroomw : userRoom v ≠ userRoom w := fun hh => hv (userRoom_inj hh)
      constructor
      · intro hmemv
        rw [roomMembers_roomJoin_ne _ sid hroomw] at hmemv
        by_cases hvu : v = u
        · subst hvu
          exact absurd hmemv (not_mem_roomMembers_roomLeave_self st.rooms (userRoom v) sid)
        · have hroomu : userRoom v ≠ userRoom u := fun hh => hvu (userRoom_inj hh)
          rw [roomMembers_roomLeave_ne st.rooms sid hroomu] at hmemv
          exact absurd ((hmem v).mp hmemv) hvu
      · intro hh
        exact absurd hh hv

theorem joinUserSeq_inv (us : List String) :
    ∀ (st : SocketState) (sid u : String),
      UserInv st sid u → (∀ v ∈ us, v ≠ "") →
      UserInv (joinUserSeq st sid us) sid (us.getLastD u) := by
  induction us with
  | nil =>
      intro st sid u h _
      simpa [joinUserSeq] using h
  | cons w ws ih =>
      intro st sid u h hv
      have hw : w ≠ "" := hv w (List.mem_cons_self w ws)
      have h1 : UserInv (joinUserRoom st sid w).1 sid w :=
        joinUserRoom_inv_step st sid u w hw h
      have h2 := ih (joinUserRoom st sid w).1 sid w h1
        (fun v hv' => hv v (List.mem_cons_of_mem w hv'))
      have hseq : joinUserSeq st sid (w :: ws) = joinUserSeq (joinUserRoom st sid w).1 sid ws :=
        rfl
      rw [hseq, List.getLastD_cons]
      exact h2

/-- C6: from a fresh connection, after any nonempty sequence of valid
join-as-user operations, socket.userId is the most recently joined user id
and the connection is a member of exactly that user's room — each join
evicts the previous user-room membership and user-to-socket mapping first. -/
theorem join_user_room_single_scope (st : SocketState) (sid u0 : String) (us : List String)
    (hclean1 : lookupKey st.connUser sid = none)
    (hclean2 : ∀ v : String, sid ∉ roomMembers st.rooms (userRoom v))
    (h0 : u0 ≠ "") (hus : ∀ v ∈ us, v ≠ "") :
    lookupKey (joinUserSeq st sid (u0 :: us)).connUser sid = some (us.getLastD u0) ∧
    ∀ v : String,
      sid ∈ roomMembers (joinUserSeq st sid (u0 :: us)).rooms (userRoom v)
        ↔ v = us.getLastD u0 := by
  have h1 : UserInv (joinUserRoom st sid u0).1 sid u0 :=
    joinUserRoom_inv_of_clean st sid u0 h0 hclean1 hclean2
  have h2 := joinUserSeq_inv us (joinUserRoom st sid u0).1 sid u0 h1 hus
  have h3 : joinUserSeq st sid (u0 :: us) = joinUserSeq (joinUserRoom st sid u0).1 sid us := by
    simp [joinUserSeq]
  rw [h3]
  exact h2

/-- C6 witness: fresh server, connection joins user a then user b. -/
theorem join_user_room_single_scope_witness :
    lookupKey initialSocketState.connUser "s1" = none ∧
    (∀ v : String, "s1" ∉ roomMembers initialSocketState.rooms (userRoom v)) ∧
    ("a" : String) ≠ "" ∧ (∀ v ∈ ["b"], v ≠ ("" : String)) ∧
    (lookupKey (joinUserSeq initialSocketState "s1" ["a", "b"]).connUser "s1"
       = some (["b"].getLastD "a") ∧
     ∀ v : String,
       "s1" ∈ roomMembers (joinUserSeq initialSocketState "s1" ["a", "b"]).rooms (userRoom v)
         ↔ v = ["b"].getLastD "a") := by
  have hc2 : ∀ v : String, "s1" ∉ roomMembers initialSocketState.rooms (userRoom v) := by
    intro v
    simp [initialSocketState, roomMembers, lookupKey]
  have hus : ∀ v ∈ ["b"], v ≠ ("" : String) := by
    intro v hv
    simp at hv
    subst hv
    decide
  exact ⟨rfl, hc2, by decide, hus,
    join_user_room_single_scope initialSocketState "s1" "a" ["b"] rfl hc2 (by decide) hus⟩

/-- C7 (amended): organization (company) scopes do NOT accumulate — joining a
second company room first leaves the previous one, so after joining company
A then company B the connection is a member of company-B but no longer of
company-A; only waiter-room (role) scopes accumulate: joining waiter rooms
for A and then B leaves the connection in both waiter rooms (and in the
global waiters room). -/
theorem company_room_single_waiter_accumulate (st : SocketState)
    (sid uA uB cA cB : String) (huA : uA ≠ "") (huB : uB ≠ "")
    (hcA : cA ≠ "") (hcB : cB ≠ "") (hAB : cA ≠ cB) :
    (sid ∈ roomMembers ((joinCompanyRoom (joinCompanyRoom st sid uA cA).1 sid uB cB).1).rooms
        (companyRoom cB) ∧
     sid ∉ roomMembers ((joinCompanyRoom (joinCompanyRoom st sid uA cA).1 sid uB cB).1).rooms
        (companyRoom cA)) ∧
    (sid ∈ roomMembers ((joinWaiterRoom (joinWaiterRoom st sid cA).1 sid cB).1).rooms
        (waiterRoom cA) ∧
     sid ∈ roomMembers ((joinWaiterRoom (joinWaiterRoom st sid cA).1 sid cB).1).rooms
        (waiterRoom cB) ∧
     sid ∈ roomMembers ((joinWaiterRoom (joinWaiterRoom st sid cA).1 sid cB).1).rooms
        "waiters") := by
  have hroomAB : companyRoom cA ≠ companyRoom cB := fun hh => hAB (companyRoom_inj hh)
  have hcc : lookupKey ((joinCompanyRoom st sid uA cA).1).connCompany sid = some cA := by
    cases hprev : lookupKey st.connCompany sid with
    | none =>
        rw [joinCompanyRoom_none_case st sid uA cA huA hcA hprev]
        exact lookupKey_setKey_self st.connCompany sid cA
    | some prev =>
        rw [joinCompanyRoom_some_case st sid uA cA prev huA hcA hprev]
        exact lookupKey_setKey_self st.connCompany sid cA
  constructor
  · rw [joinCompanyRoom_some_case ((joinCompanyRoom st sid uA cA).1) sid uB cB cA huB hcB hcc]
    constructor
    · exact mem_roomMembers_roomJoin_self _ (companyRoom cB) sid
    · intro hmem
      rw [roomMembers_roomJoin_ne _ sid hroomAB] at hmem
      exact absurd hmem (not_mem_roomMembers_roomLeave_self _ (companyRoom cA) sid)
  · rw [joinWaiterRoom_nonempty_case st sid cA hcA,
        joinWaiterRoom_nonempty_case _ sid cB hcB]
    refine ⟨?_, ?_, ?_⟩
    · exact mem_roomMembers_roomJoin_of_mem _ "waiters" sid sid
        (mem_roomMembers_roomJoin_of_mem _ (waiterRoom cB) sid sid
          (mem_roomMembers_roomJoin_of_mem _ "waiters" sid sid
            (mem_roomMembers_roomJoin_self st.rooms (waiterRoom cA) sid)))
    · exact mem_roomMembers_roomJoin_of_mem _ "waiters" sid sid
        (mem_roomMembers_roomJoin_self _ (waiterRoom cB) sid)
    · exact mem_roomMembers_roomJoin_self _ "waiters" sid

/-- C7 witness at a fresh server with companies A and B. -/
theorem company_room_single_waiter_accumulate_witness :
    ("u1" : String) ≠ "" ∧ ("u2" : String) ≠ "" ∧ ("A" : String) ≠ "" ∧
    ("B" : String) ≠ "" ∧ ("A" : String) ≠ "B" ∧
    (("s1" ∈ roomMembers ((joinCompanyRoom (joinCompanyRoom initialSocketState "s1" "u1" "A").1
         "s1" "u2" "B").1).rooms (companyRoom "B") ∧
      "s1" ∉ roomMembers ((joinCompanyRoom (joinCompanyRoom initialSocketState "s1" "u1" "A").1
         "s1" "u2" "B").1).rooms (companyRoom "A")) ∧
     ("s1" ∈ roomMembers ((joinWaiterRoom (joinWaiterRoom initialSocketState "s1" "A").1
         "s1" "B").1).rooms (waiterRoom "A") ∧
      "s1" ∈ roomMembers ((joinWaiterRoom (joinWaiterRoom initialSocketState "s1" "A").1
         "s1" "B").1).rooms (waiterRoom "B") ∧
      "s1" ∈ roomMembers ((joinWaiterRoom (joinWaiterRoom initialSocketState "s1" "A").1
         "s1" "B").1).rooms "waiters")) :=
  ⟨by decide, by decide, by decide, by decide, by decide,
   company_room_single_waiter_accumulate initialSocketState "s1" "u1" "u2" "A" "B"
     (by decide) (by decide) (by decide) (by decide) (by decide)⟩

/-- C7 counterexample to the claim as stated: after joining company room A
and then company room B, the connection is no longer a member of company
room A — the second org-scope join removed the first membership. -/
theorem company_room_accumulation_counterexample :
    "s1" ∉ roomMembers ((joinCompanyRoom (joinCompanyRoom initialSocketState "s1" "u1" "A").1
        "s1" "u1" "B").1).rooms (companyRoom "A") ∧
    "s1" ∈ roomMembers ((joinCompanyRoom (joinCompanyRoom initialSocketState "s1" "u1" "A").1
        "s1" "u1" "B").1).rooms (companyRoom "B") := by
  refine ⟨by decide, by decide⟩
